import Mathlib

/-!
# peanut-labs/go-publisher: verification of `peanutlabs.go`

A shallow embedding of the package `peanutlabs` (file `peanutlabs.go`).

* A Go `string` is an immutable sequence of bytes; `len` counts bytes and
  `s[i:j]` slices bytes. It is modelled by `GoString = List UInt8`.
* `crypto/md5`, `fmt.Sprintf` (verbs `%s`, `%d`, `%x`) and `url.Values.Get`
  belong to the Go standard library; they are modelled here after their
  documented behaviour (RFC 1321 for MD5).
* `strconv.ParseFloat` produces IEEE-754 values; it is a parameter of the
  embedding (`FloatParser`), and a `float64` is carried as its bit pattern.
-/

namespace Peanutlabs

/-! ## Go strings -/

/-- A Go string: a sequence of bytes. -/
abbrev GoString := List UInt8

/-- The Go string denoted by a source literal (Go source text is UTF-8). -/
def str (s : String) : GoString := s.toList.flatMap String.utf8EncodeChar

/-! ## `crypto/md5` (RFC 1321) -/

namespace MD5

/-- Words are 32-bit: every addition is reduced modulo `2^32`. -/
def mask32 (n : Nat) : Nat := n % 4294967296

/-- Circular left rotation of a 32-bit word (`bits.RotateLeft32`). -/
def rotl (x s : Nat) : Nat := mask32 ((x <<< s) ||| (x >>> (32 - s)))

/-- Bitwise complement of a 32-bit word. -/
def not32 (x : Nat) : Nat := 4294967295 ^^^ x

/-- The table `T[1..64]` of RFC 1321: `floor (2^32 * |sin i|)`. -/
def K : List Nat :=
  [0xd76aa478, 0xe8c7b756, 0x242070db, 0xc1bdceee, 0xf57c0faf, 0x4787c62a, 0xa8304613, 0xfd469501,
   0x698098d8, 0x8b44f7af, 0xffff5bb1, 0x895cd7be, 0x6b901122, 0xfd987193, 0xa679438e, 0x49b40821,
   0xf61e2562, 0xc040b340, 0x265e5a51, 0xe9b6c7aa, 0xd62f105d, 0x02441453, 0xd8a1e681, 0xe7d3fbc8,
   0x21e1cde6, 0xc33707d6, 0xf4d50d87, 0x455a14ed, 0xa9e3e905, 0xfcefa3f8, 0x676f02d9, 0x8d2a4c8a,
   0xfffa3942, 0x8771f681, 0x6d9d6122, 0xfde5380c, 0xa4beea44, 0x4bdecfa9, 0xf6bb4b60, 0xbebfbc70,
   0x289b7ec6, 0xeaa127fa, 0xd4ef3085, 0x04881d05, 0xd9d4d039, 0xe6db99e5, 0x1fa27cf8, 0xc4ac5665,
   0xf4292244, 0x432aff97, 0xab9423a7, 0xfc93a039, 0x655b59c3, 0x8f0ccc92, 0xffeff47d, 0x85845dd1,
   0x6fa87e4f, 0xfe2ce6e0, 0xa3014314, 0x4e0811a1, 0xf7537e82, 0xbd3af235, 0x2ad7d2bb, 0xeb86d391]

/-- Per-round rotation amounts. -/
def S : List Nat :=
  [7, 12, 17, 22, 7, 12, 17, 22, 7, 12, 17, 22, 7, 12, 17, 22,
   5, 9, 14, 20, 5, 9, 14, 20, 5, 9, 14, 20, 5, 9, 14, 20,
   4, 11, 16, 23, 4, 11, 16, 23, 4, 11, 16, 23, 4, 11, 16, 23,
   6, 10, 15, 21, 6, 10, 15, 21, 6, 10, 15, 21, 6, 10, 15, 21]

/-- The four chaining words `A, B, C, D`. -/
structure State where
  a : Nat
  b : Nat
  c : Nat
  d : Nat
deriving DecidableEq, Repr

/-- Initial chaining value. -/
def init : State := ⟨0x67452301, 0xefcdab89, 0x98badcfe, 0x10325476⟩

/-- Padding: a `0x80` byte, zero bytes up to 56 modulo 64, then the bit
length of the message as a 64-bit little-endian integer. -/
def pad (msg : List UInt8) : List UInt8 :=
  let bits := (msg.length * 8) % 18446744073709551616
  msg ++ [(0x80 : UInt8)] ++ List.replicate ((119 - msg.length % 64) % 64) (0 : UInt8) ++
    (List.range 8).map (fun i => UInt8.ofNat ((bits >>> (8 * i)) % 256))

/-- The `g`-th little-endian 32-bit word of a 64-byte block. -/
def word (blk : List UInt8) (g : Nat) : Nat :=
  (blk.getD (4 * g) 0).toNat + (blk.getD (4 * g + 1) 0).toNat <<< 8 +
    (blk.getD (4 * g + 2) 0).toNat <<< 16 + (blk.getD (4 * g + 3) 0).toNat <<< 24

/-- One of the 64 operations applied to a block. -/
def step (blk : List UInt8) (st : State) (i : Nat) : State :=
  let f :=
    if i < 16 then (st.b &&& st.c) ||| (not32 st.b &&& st.d)
    else if i < 32 then (st.d &&& st.b) ||| (not32 st.d &&& st.c)
    else if i < 48 then st.b ^^^ st.c ^^^ st.d
    else st.c ^^^ (st.b ||| not32 st.d)
  let g :=
    if i < 16 then i
    else if i < 32 then (5 * i + 1) % 16
    else if i < 48 then (3 * i + 5) % 16
    else (7 * i) % 16
  let t := mask32 (f + st.a + K.getD i 0 + word blk g)
  ⟨st.d, mask32 (st.b + rotl t (S.getD i 0)), st.b, st.c⟩

/-- Compression of one 64-byte block into the chaining value. -/
def block (st : State) (blk : List UInt8) : State :=
  let r := (List.range 64).foldl (step blk) st
  ⟨mask32 (st.a + r.a), mask32 (st.b + r.b), mask32 (st.c + r.c), mask32 (st.d + r.d)⟩

/-- Compression of the first `n` blocks of a padded message. -/
def blocks : Nat → State → List UInt8 → State
  | 0, st, _ => st
  | n + 1, st, bs => blocks n (block st (bs.take 64)) (bs.drop 64)

/-- The four bytes of a 32-bit word, least significant first. -/
def le32 (w : Nat) : List UInt8 :=
  [UInt8.ofNat (w % 256), UInt8.ofNat ((w >>> 8) % 256),
   UInt8.ofNat ((w >>> 16) % 256), UInt8.ofNat ((w >>> 24) % 256)]

/-- The 16-byte digest `md5.Sum(data)`. -/
def Sum (data : List UInt8) : List UInt8 :=
  let p := pad data
  let st := blocks (p.length / 64) init p
  le32 st.a ++ le32 st.b ++ le32 st.c ++ le32 st.d

end MD5

/-! ## `fmt` verbs -/

/-- One lowercase hexadecimal digit (`"0123456789abcdef"[n]`). -/
def hexDigit (n : Nat) : UInt8 :=
  if n < 10 then UInt8.ofNat (48 + n) else UInt8.ofNat (87 + n)

/-- Verb `%x` on a byte array: two lowercase hex digits per byte. -/
def fmtHex (bs : List UInt8) : GoString :=
  bs.flatMap (fun b => [hexDigit (b.toNat / 16), hexDigit (b.toNat % 16)])

/-- Decimal digits of a natural number, most significant first; the first
argument bounds the number of digits. -/
def natDigits : Nat → Nat → List UInt8 → List UInt8
  | 0, _, acc => acc
  | fuel + 1, n, acc =>
    if n < 10 then UInt8.ofNat (48 + n) :: acc
    else natDigits fuel (n / 10) (UInt8.ofNat (48 + n % 10) :: acc)

/-- Verb `%d` on an `int`: decimal digits, with a leading `-` when negative. -/
def fmtInt : Int → GoString
  | Int.ofNat n => natDigits (n + 1) n []
  | Int.negSucc n => (45 : UInt8) :: natDigits (n + 2) (n + 1) []

/-- Slice expression `s[i:j]`; `none` is the run-time panic raised when the
bounds are out of range. -/
def slice (s : GoString) (i j : Nat) : Option GoString :=
  if i ≤ j ∧ j ≤ s.length then some ((s.drop i).take (j - i)) else none

/-! ## `net/url` and `strconv` -/

/-- The parsed query of a request, `url.Values` (`map[string][]string`). -/
abbrev Values := List (GoString × List GoString)

/-- Method `Values.Get`: the first value stored under the key, or `""`. -/
def Values.Get (v : Values) (key : GoString) : GoString :=
  match v.lookup key with
  | some (x :: _) => x
  | _ => []

/-- A `float64`, carried as its IEEE-754 bit pattern. -/
structure Float64 where
  bits : Nat
deriving DecidableEq, Repr

/-- What `strconv.ParseFloat(s, 64)` returns: a value, and whether the
error is non-nil. -/
structure ParseFloatResult where
  val : Float64
  err : Bool
deriving DecidableEq, Repr

/-- The function `strconv.ParseFloat(·, 64)`. Only one fact about it is used:
the empty string is not a number. -/
structure FloatParser where
  parse : GoString → ParseFloatResult
  parse_empty : (parse []).err = true

/-! ## Package `peanutlabs` -/

/-- The package's error values. -/
inductive Error where
  | errInvalidAppID
  | errInvalidSecKey
  | errInvalidTxnKey
  | errInvalidEndUserID
  | errInvalidCallbackHash
  | errInvalidAmount
  | errInvalidCurrencyAmount
deriving DecidableEq, Repr

/-- The text each error was created with (`errors.New`). -/
def Error.text : Error → String
  | .errInvalidAppID => "Invalid Application ID"
  | .errInvalidSecKey => "Invalid Security Key"
  | .errInvalidTxnKey => "Invalid Transaction Key"
  | .errInvalidEndUserID => "Invalid EndUserID"
  | .errInvalidCallbackHash => "Invalid Hash for the reward notification"
  | .errInvalidAmount => "Invalid Amount in callback"
  | .errInvalidCurrencyAmount => "Invalid Currency Amount in callback"

/-- The package variable `defaultHost`. -/
def defaultHost : GoString := str "https://www.peanutlabs.com"

/-- An offer or survey that a user completes. The Go field `Type` is named
`Type_` here, `Type` being reserved. -/
structure Offer where
  ID : GoString := []
  Title : GoString := []
  Type_ : GoString := []
deriving DecidableEq, Repr

/-- The parameters of a reward notification. Field defaults are Go's zero
values, so `{}` is `RewardNotification{}`. -/
structure RewardNotification where
  EndUserID : GoString := []
  PLUserID : GoString := []
  Amount : Float64 := ⟨0⟩
  Status : GoString := []
  TransactionID : GoString := []
  CurrencyAmount : Float64 := ⟨0⟩
  CurrencyName : GoString := []
  Program : GoString := []
  Offer : Offer := {}
deriving DecidableEq, Repr

/-- The publisher's credentials. `ApplicationID` is a Go `int`. -/
structure Publisher where
  ApplicationID : Int := 0
  SecurityKey : GoString := []
  TransactionKey : GoString := []
deriving DecidableEq, Repr

/-- Function `md5Hash`: the digest of `val`, printed with `%x`. -/
def md5Hash (val : GoString) : GoString :=
  let sum := MD5.Sum val
  fmtHex sum

/-- Function `validEndUserID`; `len` counts the bytes of the string. -/
def validEndUserID (endUserID : GoString) : Bool :=
  if endUserID.length == 0 || endUserID.length > 200 then false else true

/-- Function `validOidHash`; `Sprintf("%s%s", oid, secKey)` is the concatenation. -/
def validOidHash (oid secKey hash : GoString) : Bool :=
  md5Hash (oid ++ secKey) == hash

/-- Function `validTxnHash`; `Sprintf("%s%s", tid, txnKey)` is the concatenation. -/
def validTxnHash (tid txnKey hash : GoString) : Bool :=
  md5Hash (tid ++ txnKey) == hash

/-- Method `Publisher.GenerateUserID`. The outer `Option` is `none` when the call
panics (the slice `usergo[0:10]`). -/
def GenerateUserID (p : Publisher) (endUserID : GoString) : Option (GoString × Option Error) :=
  if !validEndUserID endUserID then
    some ([], some Error.errInvalidEndUserID)
  else
    let usergo := md5Hash (endUserID ++ fmtInt p.ApplicationID ++ p.SecurityKey)
    match slice usergo 0 10 with
    | none => none
    | some c => some (endUserID ++ str "-" ++ fmtInt p.ApplicationID ++ str "-" ++ c, none)

/-- Method `Publisher.GenerateRewardCenterURL`. -/
def GenerateRewardCenterURL (p : Publisher) (endUserID : GoString) :
    Option (GoString × Option Error) :=
  match GenerateUserID p endUserID with
  | none => none
  | some (uid, err) =>
    if err ≠ none then some ([], err)
    else some (defaultHost ++ str "/userGreeting.php?userId=" ++ uid, none)

/-- Method `Publisher.ProcessRewardNotification`, on the parsed query
`req.URL.Query()` of the request. The record is `none` for a nil pointer. -/
def ProcessRewardNotification (pf : FloatParser) (p : Publisher) (query : Values) :
    Option RewardNotification × Option Error :=
  let sk := p.SecurityKey
  let tk := p.TransactionKey
  let rn : RewardNotification := {}
  let rn := { rn with TransactionID := query.Get (str "transactionId") }
  let rn := { rn with Offer := { rn.Offer with ID := query.Get (str "offerInvitationId") } }
  let oidHash := query.Get (str "oidHash")
  let txnHash := query.Get (str "txnHash")
  if !validOidHash rn.Offer.ID sk oidHash || !validTxnHash rn.TransactionID tk txnHash then
    (none, some Error.errInvalidCallbackHash)
  else
    let amt := pf.parse (query.Get (str "amt"))
    if amt.err then
      (some rn, some Error.errInvalidAmount)
    else
      let rn := { rn with Amount := amt.val }
      let rn := { rn with Offer := { rn.Offer with Title := query.Get (str "offerTitle") } }
      let rn := { rn with Offer := { rn.Offer with Type_ := query.Get (str "offerType") } }
      let rn := { rn with Status := query.Get (str "status") }
      let rn := { rn with Program := query.Get (str "program") }
      let rn := { rn with CurrencyName := query.Get (str "currencyName") }
      let cur := pf.parse (query.Get (str "currencyAmt"))
      let rn := { rn with CurrencyAmount := cur.val }
      if cur.err then
        (some rn, some Error.errInvalidCurrencyAmount)
      else
        let rn := { rn with PLUserID := query.Get (str "userId") }
        let rn := { rn with EndUserID := query.Get (str "endUserId") }
        (some rn, none)

/-- Function `New`. The composite literal sets `ApplicationID` and `SecurityKey`;
`TransactionKey` keeps its zero value. -/
def New (appID : Int) (secKey txnKey : GoString) : Option Publisher × Option Error :=
  if appID == 0 then
    (none, some Error.errInvalidAppID)
  else if secKey.length == 0 then
    (none, some Error.errInvalidSecKey)
  else if txnKey.length == 0 then
    (none, some Error.errInvalidTxnKey)
  else
    (some { ApplicationID := appID, SecurityKey := secKey }, none)

/-! ## Vocabulary of the statements -/

/-- The callback's two hashes verify against the keys of `p`. -/
def hashesVerify (p : Publisher) (query : Values) : Prop :=
  query.Get (str "oidHash") =
      md5Hash (query.Get (str "offerInvitationId") ++ p.SecurityKey) ∧
    query.Get (str "txnHash") =
      md5Hash (query.Get (str "transactionId") ++ p.TransactionKey)

instance (p : Publisher) (query : Values) : Decidable (hashesVerify p query) := by
  unfold hashesVerify
  exact inferInstance

/-- A lowercase hexadecimal digit: `0`-`9` or `a`-`f`. -/
def isLowerHex (c : UInt8) : Bool :=
  (48 ≤ c.toNat && c.toNat ≤ 57) || (97 ≤ c.toNat && c.toNat ≤ 102)

/-- A decimal digit `0`-`9`. -/
def isDigit (c : UInt8) : Bool := 48 ≤ c.toNat && c.toNat ≤ 57

/-- An ASCII letter, a decimal digit or a hyphen. -/
def isURLSafe (c : UInt8) : Bool :=
  (48 ≤ c.toNat && c.toNat ≤ 57) || (65 ≤ c.toNat && c.toNat ≤ 90) ||
    (97 ≤ c.toNat && c.toNat ≤ 122) || c.toNat == 45

/-- The number that a string of decimal digits denotes, continuing from `a`. -/
def decimalValue (a : Nat) (ds : List UInt8) : Nat :=
  ds.foldl (fun v c => 10 * v + (c.toNat - 48)) a

/-! ## Data of the package test -/

/-- The query of `TestPublisher_ProcessRewardNotification`, parsed. -/
def testQuery : Values :=
  [(str "cmd", [str "transactionComplete"]),
   (str "userId", [str "saad-1-bb753c1132"]),
   (str "amt", [str "1.0"]),
   (str "offerInvitationId", [str "123"]),
   (str "status", [str "C"]),
   (str "oidHash", [str "4297f44b13955235245b2497399d7a93"]),
   (str "currencyAmt", [str "50"]),
   (str "transactionId", [str "456"]),
   (str "endUserId", [str "saad"]),
   (str "offerTitle", [str "Survey"]),
   (str "useragent", [str "Peanut Labs Media"]),
   (str "currencyName", [str "Pointies"]),
   (str "offerType", [str "Survey"]),
   (str "txnHash", [str "250cf8b51c773f3f8dc8b4be867a9a02"]),
   (str "program", [str ""])]

/-- The `float64` 1.0. -/
def float1 : Float64 := ⟨0x3FF0000000000000⟩

/-- The `float64` 50.0. -/
def float50 : Float64 := ⟨0x4049000000000000⟩

/-- A parser that agrees with `strconv.ParseFloat` on the numerals `1.0`
and `50` and reports an error on every other string. -/
def numeralParser : FloatParser where
  parse s :=
    if s = str "1.0" then ⟨float1, false⟩
    else if s = str "50" then ⟨float50, false⟩
    else ⟨⟨0⟩, true⟩
  parse_empty := by decide

/-- A signed callback whose `amt` is not a number. -/
def badAmtQuery : Values :=
  [(str "offerInvitationId", [str "123"]),
   (str "oidHash", [str "4297f44b13955235245b2497399d7a93"]),
   (str "transactionId", [str "456"]),
   (str "txnHash", [str "250cf8b51c773f3f8dc8b4be867a9a02"]),
   (str "amt", [str "one"]),
   (str "currencyAmt", [str "50"]),
   (str "status", [str "C"]),
   (str "userId", [str "saad-1-bb753c1132"])]

/-- A signed callback whose `amt` parses and whose `currencyAmt` is missing. -/
def badCurrencyQuery : Values :=
  [(str "offerInvitationId", [str "123"]),
   (str "oidHash", [str "4297f44b13955235245b2497399d7a93"]),
   (str "transactionId", [str "456"]),
   (str "txnHash", [str "250cf8b51c773f3f8dc8b4be867a9a02"]),
   (str "amt", [str "1.0"]),
   (str "status", [str "C"]),
   (str "userId", [str "saad-1-bb753c1132"])]

/-- The publisher that `New(1, "123", "123")` returns. -/
def testPublisher : Publisher := { ApplicationID := 1, SecurityKey := str "123" }

/-- An end-user id of 101 characters, each the letter U+00E9 (e with acute
accent), which UTF-8 writes in two bytes. -/
def accentedEndUserID : String := String.mk (List.replicate 101 (Char.ofNat 233))

/-! ## Auxiliary facts -/

/-- The model of `crypto/md5` reproduces the test suite of RFC 1321 (A.5),
including a message of two blocks. -/
theorem md5Hash_rfc1321 :
    md5Hash (str "") = str "d41d8cd98f00b204e9800998ecf8427e" ∧
    md5Hash (str "abc") = str "900150983cd24fb0d6963f7d28e17f72" ∧
    md5Hash (str "message digest") = str "f96b697d7cb7938d525a2f31aaf161d0" ∧
    md5Hash (str ("1234567890123456789012345678901234567890" ++
        "1234567890123456789012345678901234567890")) =
      str "57edf4a22be3c955ac49da2e2107b67a" :=
  ⟨by decide!, by decide!, by decide!, by decide!⟩

/-- The verb `%d` on a few integers. -/
theorem fmtInt_examples :
    fmtInt 0 = str "0" ∧ fmtInt 1 = str "1" ∧ fmtInt 1024 = str "1024" ∧
      fmtInt (-120) = str "-120" ∧
      fmtInt 9223372036854775807 = str "9223372036854775807" :=
  ⟨by decide!, by decide!, by decide!, by decide!, by decide!⟩

theorem md5Hash_length (val : GoString) : (md5Hash val).length = 32 := by
  simp [md5Hash, fmtHex, MD5.Sum, MD5.le32, List.flatMap]

theorem slice_md5Hash (val : GoString) :
    slice (md5Hash val) 0 10 = some ((md5Hash val).take 10) := by
  simp [slice, md5Hash_length]

theorem validEndUserID_iff (e : GoString) :
    validEndUserID e = true ↔ 0 < e.length ∧ e.length ≤ 200 := by
  unfold validEndUserID
  by_cases h0 : e.length = 0
  · simp [h0]
  · by_cases h1 : 200 < e.length
    · simp [h1]
    · simp [h0, h1]
      omega

theorem GenerateUserID_invalid (p : Publisher) (e : GoString) (h : validEndUserID e = false) :
    GenerateUserID p e = some ([], some Error.errInvalidEndUserID) := by
  simp [GenerateUserID, h]

theorem GenerateUserID_valid (p : Publisher) (e : GoString) (h : validEndUserID e = true) :
    GenerateUserID p e =
      some (e ++ str "-" ++ fmtInt p.ApplicationID ++ str "-" ++
        (md5Hash (e ++ fmtInt p.ApplicationID ++ p.SecurityKey)).take 10, none) := by
  simp [GenerateUserID, h, slice_md5Hash]

theorem process_of_bad_hash (pf : FloatParser) (p : Publisher) (query : Values)
    (h : ¬ hashesVerify p query) :
    ProcessRewardNotification pf p query = (none, some Error.errInvalidCallbackHash) := by
  unfold hashesVerify at h
  unfold ProcessRewardNotification
  simp only [validOidHash, validTxnHash]
  by_cases h1 : md5Hash (query.Get (str "offerInvitationId") ++ p.SecurityKey) =
      query.Get (str "oidHash")
  · by_cases h2 : md5Hash (query.Get (str "transactionId") ++ p.TransactionKey) =
        query.Get (str "txnHash")
    · exact absurd ⟨h1.symm, h2.symm⟩ h
    · simp [h1, h2]
  · simp [h1]

theorem process_of_good_hash (pf : FloatParser) (p : Publisher) (query : Values)
    (h : hashesVerify p query) :
    ProcessRewardNotification pf p query =
      if (pf.parse (query.Get (str "amt"))).err then
        (some { TransactionID := query.Get (str "transactionId"),
                Offer := { ID := query.Get (str "offerInvitationId") } },
         some Error.errInvalidAmount)
      else if (pf.parse (query.Get (str "currencyAmt"))).err then
        (some { TransactionID := query.Get (str "transactionId"),
                Offer := { ID := query.Get (str "offerInvitationId"),
                           Title := query.Get (str "offerTitle"),
                           Type_ := query.Get (str "offerType") },
                Amount := (pf.parse (query.Get (str "amt"))).val,
                Status := query.Get (str "status"),
                Program := query.Get (str "program"),
                CurrencyName := query.Get (str "currencyName"),
                CurrencyAmount := (pf.parse (query.Get (str "currencyAmt"))).val },
         some Error.errInvalidCurrencyAmount)
      else
        (some { TransactionID := query.Get (str "transactionId"),
                Offer := { ID := query.Get (str "offerInvitationId"),
                           Title := query.Get (str "offerTitle"),
                           Type_ := query.Get (str "offerType") },
                Amount := (pf.parse (query.Get (str "amt"))).val,
                Status := query.Get (str "status"),
                Program := query.Get (str "program"),
                CurrencyName := query.Get (str "currencyName"),
                CurrencyAmount := (pf.parse (query.Get (str "currencyAmt"))).val,
                PLUserID := query.Get (str "userId"),
                EndUserID := query.Get (str "endUserId") },
         none) := by
  obtain ⟨h1, h2⟩ := h
  unfold ProcessRewardNotification
  simp only [validOidHash, validTxnHash]
  simp [← h1, ← h2]

theorem Get_of_lookup_none (query : Values) (key : GoString) (h : query.lookup key = none) :
    query.Get key = [] := by
  simp [Values.Get, h]

theorem hexDigit_lower (n : Nat) (h : n < 16) : isLowerHex (hexDigit n) = true := by
  revert n
  decide

theorem UInt8_toNat_lt (b : UInt8) : b.toNat < 256 := b.val.isLt

theorem md5Hash_lower (val : GoString) : ∀ c ∈ md5Hash val, isLowerHex c = true := by
  intro c hc
  simp only [md5Hash, fmtHex, List.mem_flatMap] at hc
  obtain ⟨b, _, hb⟩ := hc
  have hlt := UInt8_toNat_lt b
  simp only [List.mem_cons, List.mem_singleton, List.not_mem_nil, or_false] at hb
  rcases hb with rfl | rfl
  · exact hexDigit_lower _ (by omega)
  · exact hexDigit_lower _ (by omega)

theorem Sum_length (data : List UInt8) : (MD5.Sum data).length = 16 := by
  simp [MD5.Sum, MD5.le32]

/-- The padded message is a whole number of 64-byte blocks, so `MD5.Sum`
compresses all of it. -/
theorem pad_length (msg : List UInt8) :
    64 * ((MD5.pad msg).length / 64) = (MD5.pad msg).length := by
  have h : (MD5.pad msg).length % 64 = 0 := by
    simp only [MD5.pad, List.length_append, List.length_replicate, List.length_map,
      List.length_range, List.length_singleton]
    omega
  omega

theorem digit_toNat (m : Nat) (h : m < 10) : (UInt8.ofNat (48 + m)).toNat = 48 + m := by
  revert m
  decide

theorem natDigits_isDigit (fuel n : Nat) (acc : List UInt8)
    (hacc : ∀ c ∈ acc, isDigit c = true) : ∀ c ∈ natDigits fuel n acc, isDigit c = true := by
  induction fuel generalizing n acc with
  | zero => simpa [natDigits] using hacc
  | succ fuel ih =>
    unfold natDigits
    have hd : ∀ m, m < 10 → isDigit (UInt8.ofNat (48 + m)) = true := by decide
    split
    · intro c hc
      rcases List.mem_cons.1 hc with rfl | hc
      · exact hd n (by assumption)
      · exact hacc c hc
    · apply ih
      intro c hc
      rcases List.mem_cons.1 hc with rfl | hc
      · exact hd _ (Nat.mod_lt _ (by decide))
      · exact hacc c hc

/-- Reading back the digits written by `natDigits`, given enough fuel. -/
theorem decimalValue_natDigits (fuel n : Nat) (acc : List UInt8) (h : n < fuel) :
    decimalValue 0 (natDigits fuel n acc) = decimalValue n acc := by
  induction fuel generalizing n acc with
  | zero => omega
  | succ fuel ih =>
    unfold natDigits
    split
    · rename_i hlt
      simp [decimalValue, digit_toNat n hlt]
    · rename_i hge
      rw [ih (n / 10) _ (by omega)]
      have hm : n % 10 < 10 := Nat.mod_lt _ (by decide)
      simp only [decimalValue, List.foldl_cons, digit_toNat _ hm]
      congr 1
      omega

theorem fmtInt_ofNat_isDigit (n : Nat) : ∀ c ∈ fmtInt (Int.ofNat n), isDigit c = true :=
  natDigits_isDigit _ _ _ (by simp)

/-- The verb `%d` loses nothing: the digits of a non-negative `int` denote it. -/
theorem decimalValue_fmtInt (n : Nat) : decimalValue 0 (fmtInt (Int.ofNat n)) = n := by
  show decimalValue 0 (natDigits (n + 1) n []) = n
  rw [decimalValue_natDigits (n + 1) n [] (by omega)]
  rfl

theorem isDigit_ne_hyphen (d : List UInt8) (h : ∀ c ∈ d, isDigit c = true) :
    (45 : UInt8) ∉ d := by
  intro hmem
  have := h 45 hmem
  revert this
  decide

theorem isURLSafe_of_isDigit (c : UInt8) (h : isDigit c = true) : isURLSafe c = true := by
  simp only [isDigit, Bool.and_eq_true, decide_eq_true_eq] at h
  simp [isURLSafe, h.1, h.2]

theorem isURLSafe_of_isLowerHex (c : UInt8) (h : isLowerHex c = true) :
    isURLSafe c = true := by
  simp only [isLowerHex, Bool.or_eq_true, Bool.and_eq_true, decide_eq_true_eq] at h
  simp only [isURLSafe, Bool.or_eq_true, Bool.and_eq_true, decide_eq_true_eq, beq_iff_eq]
  omega

theorem fmtInt_isURLSafe (n : Int) : ∀ c ∈ fmtInt n, isURLSafe c = true := by
  intro c hc
  cases n with
  | ofNat n => exact isURLSafe_of_isDigit c (fmtInt_ofNat_isDigit n c hc)
  | negSucc n =>
    rcases List.mem_cons.1 hc with rfl | hc
    · decide
    · exact isURLSafe_of_isDigit c (natDigits_isDigit _ _ _ (by simp) c hc)

/-- A string is split in one way only at a separator that its tail avoids. -/
theorem append_cons_inj_right (a : UInt8) (x y d d2 : List UInt8)
    (hd : a ∉ d) (hd2 : a ∉ d2) (h : x ++ a :: d = y ++ a :: d2) : x = y ∧ d = d2 := by
  induction x generalizing y with
  | nil =>
    cases y with
    | nil => simpa using h
    | cons b y =>
      simp only [List.nil_append, List.cons_append, List.cons.injEq] at h
      exact absurd (by rw [h.2]; simp) hd
  | cons b x ih =>
    cases y with
    | nil =>
      simp only [List.nil_append, List.cons_append, List.cons.injEq] at h
      exact absurd (by rw [← h.2]; simp) hd2
    | cons c y =>
      simp only [List.cons_append, List.cons.injEq] at h
      obtain ⟨rfl, rfl⟩ := ih y h.2
      exact ⟨by rw [h.1], rfl⟩

theorem GenerateUserID_success (p : Publisher) (e id : GoString)
    (h : GenerateUserID p e = some (id, none)) :
    validEndUserID e = true ∧
      id = e ++ str "-" ++ fmtInt p.ApplicationID ++ str "-" ++
        (md5Hash (e ++ fmtInt p.ApplicationID ++ p.SecurityKey)).take 10 := by
  cases hv : validEndUserID e with
  | false =>
    rw [GenerateUserID_invalid p e hv] at h
    simp at h
  | true =>
    rw [GenerateUserID_valid p e hv] at h
    simp only [Option.some.injEq, Prod.mk.injEq, and_true] at h
    exact ⟨rfl, h.symm⟩

theorem validOidHash_iff (oid secKey hash : GoString) :
    validOidHash oid secKey hash = true ↔ hash = md5Hash (oid ++ secKey) := by
  simp only [validOidHash, beq_iff_eq]
  exact eq_comm

theorem validTxnHash_iff (tid txnKey hash : GoString) :
    validTxnHash tid txnKey hash = true ↔ hash = md5Hash (tid ++ txnKey) := by
  simp only [validTxnHash, beq_iff_eq]
  exact eq_comm

theorem set_ne_self (l : List UInt8) (i : Nat) (c : UInt8) (hi : i < l.length)
    (hc : l[i]? ≠ some c) : l.set i c ≠ l := by
  intro h
  apply hc
  rw [← h]
  exact List.getElem?_set_self hi

/-! ## The claims -/

/-- C1: `ProcessRewardNotification` returns the nil record together with
`errInvalidCallbackHash` ("Invalid Hash for the reward notification") exactly
when `oidHash` differs from the hex MD5 of `offerInvitationId ++ SecurityKey`
or `txnHash` differs from the hex MD5 of `transactionId ++ TransactionKey`,
for every publisher, every query and every behaviour of the float parser. -/
theorem C1_invalid_hash_iff (pf : FloatParser) (p : Publisher) (query : Values) :
    (ProcessRewardNotification pf p query = (none, some Error.errInvalidCallbackHash) ↔
      (query.Get (str "oidHash") ≠
          md5Hash (query.Get (str "offerInvitationId") ++ p.SecurityKey) ∨
        query.Get (str "txnHash") ≠
          md5Hash (query.Get (str "transactionId") ++ p.TransactionKey))) ∧
      Error.errInvalidCallbackHash.text = "Invalid Hash for the reward notification" := by
  refine ⟨?_, rfl⟩
  by_cases h : hashesVerify p query
  · constructor
    · intro hres
      rw [process_of_good_hash pf p query h] at hres
      split at hres
      · simp at hres
      · split at hres <;> simp at hres
    · intro hbad
      rcases hbad with hb | hb
      · exact absurd h.1 hb
      · exact absurd h.2 hb
  · constructor
    · intro _
      by_contra hcon
      apply h
      simp only [not_or, not_not] at hcon
      exact hcon
    · intro _
      exact process_of_bad_hash pf p query h

/-- C2 (the code at the failing input): the publisher returned by
`New(1, "123", "abc")` accepts the test callback, whose `txnHash` is not the
hex MD5 of `transactionId ++ "abc"` (it is the hex MD5 of `transactionId`
alone). -/
theorem C2_transaction_key_not_used :
    ∃ p, New 1 (str "123") (str "abc") = (some p, none) ∧
      (ProcessRewardNotification numeralParser p testQuery).2 = none ∧
      testQuery.Get (str "txnHash") ≠
        md5Hash (testQuery.Get (str "transactionId") ++ str "abc") ∧
      testQuery.Get (str "txnHash") = md5Hash (testQuery.Get (str "transactionId")) :=
  ⟨testPublisher, by decide!, by decide!, by decide!, by decide!⟩

/-- C3: when `GenerateUserID` succeeds, the identifier is
`e ++ "-" ++ decimal(ApplicationID) ++ "-" ++ c`, with `c` the first 10
characters of the hex MD5 of `e ++ decimal(ApplicationID) ++ SecurityKey`;
for `"saad"`, application 1 and key `"123"` it is `"saad-1-bb753c1132"`. -/
theorem C3_identifier_format :
    (∀ (p : Publisher) (e id : GoString), GenerateUserID p e = some (id, none) →
      id = e ++ str "-" ++ fmtInt p.ApplicationID ++ str "-" ++
        (md5Hash (e ++ fmtInt p.ApplicationID ++ p.SecurityKey)).take 10) ∧
    (∀ tk : GoString,
      GenerateUserID { ApplicationID := 1, SecurityKey := str "123", TransactionKey := tk }
        (str "saad") = some (str "saad-1-bb753c1132", none)) := by
  constructor
  · intro p e id h
    cases hv : validEndUserID e with
    | false =>
      rw [GenerateUserID_invalid p e hv] at h
      simp at h
    | true =>
      rw [GenerateUserID_valid p e hv] at h
      simp only [Option.some.injEq, Prod.mk.injEq, and_true] at h
      exact h.symm
  · intro tk
    rw [GenerateUserID_valid _ _ (by decide)]
    show some (str "saad" ++ str "-" ++ fmtInt 1 ++ str "-" ++
        List.take 10 (md5Hash (str "saad" ++ fmtInt 1 ++ str "123")), (none : Option Error)) =
      some (str "saad-1-bb753c1132", none)
    decide!

/-- Witness of C3 at `"saad"`, application 1, key `"123"`. -/
theorem C3_identifier_format_witness :
    GenerateUserID testPublisher (str "saad") = some (str "saad-1-bb753c1132", none) ∧
    str "saad-1-bb753c1132" =
      str "saad" ++ str "-" ++ fmtInt testPublisher.ApplicationID ++ str "-" ++
        (md5Hash (str "saad" ++ fmtInt testPublisher.ApplicationID ++
          testPublisher.SecurityKey)).take 10 :=
  ⟨by decide!, C3_identifier_format.1 testPublisher (str "saad") (str "saad-1-bb753c1132")
    (by decide!)⟩

/-- C4 as stated fails: an end-user id of 101 characters, not empty and not
longer than 200 characters, occupies 202 bytes, and `GenerateUserID` returns
the empty identifier with `errInvalidEndUserID` on it. -/
theorem C4_multibyte_end_user_id :
    accentedEndUserID.length = 101 ∧
      (str accentedEndUserID).length = 202 ∧
      GenerateUserID testPublisher (str accentedEndUserID) =
        some ([], some Error.errInvalidEndUserID) :=
  ⟨by decide!, by decide!, by decide!⟩

/-- C4, amended: `GenerateUserID` returns the empty identifier with
`errInvalidEndUserID` exactly when `endUserID` is empty or longer than 200
bytes (`len` counts the bytes of the Go string), and returns an identifier
without error exactly when it is non-empty and at most 200 bytes long,
whatever `ApplicationID` and `SecurityKey` are; it has no other outcome. -/
theorem C4_invalid_end_user_id_iff (p : Publisher) (e : GoString) :
    (GenerateUserID p e = some ([], some Error.errInvalidEndUserID) ↔
      (e.length = 0 ∨ 200 < e.length)) ∧
    ((∃ id, GenerateUserID p e = some (id, none)) ↔ (0 < e.length ∧ e.length ≤ 200)) := by
  cases hv : validEndUserID e with
  | false =>
    have hn : ¬ (0 < e.length ∧ e.length ≤ 200) := by
      rw [← validEndUserID_iff, hv]
      simp
    rw [GenerateUserID_invalid p e hv]
    constructor
    · constructor
      · intro _
        omega
      · intro _
        rfl
    · constructor
      · rintro ⟨id, h⟩
        simp at h
      · intro h
        exact absurd h hn
  | true =>
    have hy : 0 < e.length ∧ e.length ≤ 200 := (validEndUserID_iff e).1 hv
    rw [GenerateUserID_valid p e hv]
    constructor
    · constructor
      · intro h
        simp at h
      · intro h
        omega
    · constructor
      · intro _
        exact hy
      · intro _
        exact ⟨_, rfl⟩

/-- C5: when both hashes verify and both `amt` and `currencyAmt` parse,
`ProcessRewardNotification` returns no error and the record whose string
fields are the values of the corresponding keys, verbatim, and whose amounts
are the two parsed values; on the publisher returned by `New(1, "123", "123")`
the callback of the package test yields `Amount` 1.0, `CurrencyAmount` 50.0,
`Status` `"C"` and `Offer` `{"123", "Survey", "Survey"}`. -/
theorem C5_successful_parse :
    (∀ (pf : FloatParser) (p : Publisher) (query : Values),
      query.Get (str "oidHash") =
        md5Hash (query.Get (str "offerInvitationId") ++ p.SecurityKey) →
      query.Get (str "txnHash") =
        md5Hash (query.Get (str "transactionId") ++ p.TransactionKey) →
      (pf.parse (query.Get (str "amt"))).err = false →
      (pf.parse (query.Get (str "currencyAmt"))).err = false →
      ProcessRewardNotification pf p query =
        (some { TransactionID := query.Get (str "transactionId"),
                Offer := { ID := query.Get (str "offerInvitationId"),
                           Title := query.Get (str "offerTitle"),
                           Type_ := query.Get (str "offerType") },
                Status := query.Get (str "status"),
                Program := query.Get (str "program"),
                CurrencyName := query.Get (str "currencyName"),
                PLUserID := query.Get (str "userId"),
                EndUserID := query.Get (str "endUserId"),
                Amount := (pf.parse (query.Get (str "amt"))).val,
                CurrencyAmount := (pf.parse (query.Get (str "currencyAmt"))).val },
         none)) ∧
    (∀ pf : FloatParser,
      pf.parse (str "1.0") = ⟨float1, false⟩ →
      pf.parse (str "50") = ⟨float50, false⟩ →
      ∃ p, New 1 (str "123") (str "123") = (some p, none) ∧
        ProcessRewardNotification pf p testQuery =
          (some { EndUserID := str "saad",
                  PLUserID := str "saad-1-bb753c1132",
                  Amount := float1,
                  Status := str "C",
                  TransactionID := str "456",
                  CurrencyAmount := float50,
                  CurrencyName := str "Pointies",
                  Program := str "",
                  Offer := { ID := str "123", Title := str "Survey", Type_ := str "Survey" } },
           none)) := by
  have general : ∀ (pf : FloatParser) (p : Publisher) (query : Values),
      hashesVerify p query →
      (pf.parse (query.Get (str "amt"))).err = false →
      (pf.parse (query.Get (str "currencyAmt"))).err = false →
      ProcessRewardNotification pf p query =
        (some { TransactionID := query.Get (str "transactionId"),
                Offer := { ID := query.Get (str "offerInvitationId"),
                           Title := query.Get (str "offerTitle"),
                           Type_ := query.Get (str "offerType") },
                Status := query.Get (str "status"),
                Program := query.Get (str "program"),
                CurrencyName := query.Get (str "currencyName"),
                PLUserID := query.Get (str "userId"),
                EndUserID := query.Get (str "endUserId"),
                Amount := (pf.parse (query.Get (str "amt"))).val,
                CurrencyAmount := (pf.parse (query.Get (str "currencyAmt"))).val },
         none) := by
    intro pf p query hv ha hc
    rw [process_of_good_hash pf p query hv]
    simp [ha, hc]
  constructor
  · intro pf p query h1 h2 ha hc
    exact general pf p query ⟨h1, h2⟩ ha hc
  · intro pf h1 h50
    refine ⟨testPublisher, by decide, ?_⟩
    have hamt : testQuery.Get (str "amt") = str "1.0" := by decide
    have hcur : testQuery.Get (str "currencyAmt") = str "50" := by decide
    rw [general pf testPublisher testQuery (by decide!) (by rw [hamt, h1]) (by rw [hcur, h50])]
    rw [hamt, hcur, h1, h50]
    decide

/-- Witness of C5: the callback of the package test, parsed with
`numeralParser` on the publisher that `New(1, "123", "123")` returns. -/
theorem C5_successful_parse_witness :
    New 1 (str "123") (str "123") = (some testPublisher, none) ∧
    hashesVerify testPublisher testQuery ∧
    (numeralParser.parse (testQuery.Get (str "amt"))).err = false ∧
    (numeralParser.parse (testQuery.Get (str "currencyAmt"))).err = false ∧
    (ProcessRewardNotification numeralParser testPublisher testQuery).2 = none ∧
    ProcessRewardNotification numeralParser testPublisher testQuery =
      (some { TransactionID := testQuery.Get (str "transactionId"),
              Offer := { ID := testQuery.Get (str "offerInvitationId"),
                         Title := testQuery.Get (str "offerTitle"),
                         Type_ := testQuery.Get (str "offerType") },
              Status := testQuery.Get (str "status"),
              Program := testQuery.Get (str "program"),
              CurrencyName := testQuery.Get (str "currencyName"),
              PLUserID := testQuery.Get (str "userId"),
              EndUserID := testQuery.Get (str "endUserId"),
              Amount := (numeralParser.parse (testQuery.Get (str "amt"))).val,
              CurrencyAmount := (numeralParser.parse (testQuery.Get (str "currencyAmt"))).val },
       none) :=
  ⟨by decide, by decide!, by decide, by decide, by decide!,
    C5_successful_parse.1 numeralParser testPublisher testQuery
      (by decide!) (by decide!) (by decide) (by decide)⟩

/-- C6: when both hashes verify and `amt` is absent or does not parse,
`ProcessRewardNotification` returns `errInvalidAmount` together with a
non-nil record holding `transactionId` and `offerInvitationId`, every other
field at its zero value. -/
theorem C6_invalid_amount (pf : FloatParser) (p : Publisher) (query : Values)
    (hoid : query.Get (str "oidHash") =
      md5Hash (query.Get (str "offerInvitationId") ++ p.SecurityKey))
    (htxn : query.Get (str "txnHash") =
      md5Hash (query.Get (str "transactionId") ++ p.TransactionKey))
    (hamt : query.lookup (str "amt") = none ∨
      (pf.parse (query.Get (str "amt"))).err = true) :
    ProcessRewardNotification pf p query =
      (some { TransactionID := query.Get (str "transactionId"),
              Offer := { ID := query.Get (str "offerInvitationId"), Title := [], Type_ := [] },
              Amount := ⟨0⟩,
              CurrencyAmount := ⟨0⟩,
              Status := [],
              Program := [],
              CurrencyName := [],
              PLUserID := [],
              EndUserID := [] },
       some Error.errInvalidAmount) := by
  have herr : (pf.parse (query.Get (str "amt"))).err = true := by
    rcases hamt with h | h
    · rw [Get_of_lookup_none query _ h]
      exact pf.parse_empty
    · exact h
  rw [process_of_good_hash pf p query ⟨hoid, htxn⟩]
  simp [herr]

/-- Witness of C6: a signed callback with `amt=one`. -/
theorem C6_invalid_amount_witness :
    ProcessRewardNotification numeralParser testPublisher badAmtQuery =
      (some { TransactionID := str "456", Offer := { ID := str "123" } },
       some Error.errInvalidAmount) :=
  C6_invalid_amount numeralParser testPublisher badAmtQuery (by decide!) (by decide!)
    (Or.inr (by decide))

/-- C7: `ProcessRewardNotification` returns `errInvalidCurrencyAmount`
exactly when both hashes verify, `amt` parses and `currencyAmt` is absent or
does not parse (when both amounts are malformed the error is
`errInvalidAmount`); the record returned with it is non-nil, holds
`transactionId`, `offerInvitationId`, the parsed `amt`, `offerTitle`,
`offerType`, `status`, `program` and `currencyName`, and its `PLUserID` and
`EndUserID` are empty. -/
theorem C7_invalid_currency_amount (pf : FloatParser) (p : Publisher) (query : Values) :
    ((ProcessRewardNotification pf p query).2 = some Error.errInvalidCurrencyAmount ↔
      (query.Get (str "oidHash") =
          md5Hash (query.Get (str "offerInvitationId") ++ p.SecurityKey) ∧
        query.Get (str "txnHash") =
          md5Hash (query.Get (str "transactionId") ++ p.TransactionKey) ∧
        (pf.parse (query.Get (str "amt"))).err = false ∧
        (query.lookup (str "currencyAmt") = none ∨
          (pf.parse (query.Get (str "currencyAmt"))).err = true))) ∧
    ((ProcessRewardNotification pf p query).2 = some Error.errInvalidCurrencyAmount →
      ∃ rn, (ProcessRewardNotification pf p query).1 = some rn ∧
        rn.TransactionID = query.Get (str "transactionId") ∧
        rn.Offer.ID = query.Get (str "offerInvitationId") ∧
        rn.Amount = (pf.parse (query.Get (str "amt"))).val ∧
        rn.Offer.Title = query.Get (str "offerTitle") ∧
        rn.Offer.Type_ = query.Get (str "offerType") ∧
        rn.Status = query.Get (str "status") ∧
        rn.Program = query.Get (str "program") ∧
        rn.CurrencyName = query.Get (str "currencyName") ∧
        rn.PLUserID = [] ∧
        rn.EndUserID = []) ∧
    (hashesVerify p query → (pf.parse (query.Get (str "amt"))).err = true →
      (pf.parse (query.Get (str "currencyAmt"))).err = true →
      (ProcessRewardNotification pf p query).2 = some Error.errInvalidAmount) := by
  have habsent : (query.lookup (str "currencyAmt") = none ∨
      (pf.parse (query.Get (str "currencyAmt"))).err = true) ↔
      (pf.parse (query.Get (str "currencyAmt"))).err = true := by
    constructor
    · rintro (h | h)
      · rw [Get_of_lookup_none query _ h]
        exact pf.parse_empty
      · exact h
    · intro h
      exact Or.inr h
  rw [habsent]
  by_cases hv : hashesVerify p query
  · rw [process_of_good_hash pf p query hv]
    cases ha : (pf.parse (query.Get (str "amt"))).err with
    | true =>
      simp
    | false =>
      cases hc : (pf.parse (query.Get (str "currencyAmt"))).err with
      | true =>
        simp only [Bool.false_eq_true, if_false, if_true, true_iff, and_true]
        refine ⟨⟨hv.1, hv.2⟩, ?_, ?_⟩
        · intro _
          exact ⟨_, rfl, rfl, rfl, rfl, rfl, rfl, rfl, rfl, rfl, rfl, rfl⟩
        · intro _ h
          simp at h
      | false =>
        simp
  · rw [process_of_bad_hash pf p query hv]
    refine ⟨?_, ?_, ?_⟩
    · constructor
      · intro h
        simp at h
      · rintro ⟨h1, h2, _, _⟩
        exact absurd ⟨h1, h2⟩ hv
    · intro h
      simp at h
    · intro h
      exact absurd h hv

/-- Witness of C7: a signed callback with `amt=1.0` and no `currencyAmt`. -/
theorem C7_invalid_currency_amount_witness :
    (ProcessRewardNotification numeralParser testPublisher badCurrencyQuery).2 =
        some Error.errInvalidCurrencyAmount ∧
      ∃ rn, (ProcessRewardNotification numeralParser testPublisher badCurrencyQuery).1 =
          some rn ∧
        rn.TransactionID = badCurrencyQuery.Get (str "transactionId") ∧
        rn.Offer.ID = badCurrencyQuery.Get (str "offerInvitationId") ∧
        rn.Amount = (numeralParser.parse (badCurrencyQuery.Get (str "amt"))).val ∧
        rn.Offer.Title = badCurrencyQuery.Get (str "offerTitle") ∧
        rn.Offer.Type_ = badCurrencyQuery.Get (str "offerType") ∧
        rn.Status = badCurrencyQuery.Get (str "status") ∧
        rn.Program = badCurrencyQuery.Get (str "program") ∧
        rn.CurrencyName = badCurrencyQuery.Get (str "currencyName") ∧
        rn.PLUserID = [] ∧
        rn.EndUserID = [] :=
  ⟨by decide!,
    (C7_invalid_currency_amount numeralParser testPublisher badCurrencyQuery).2.1
      (by decide!)⟩

/-- C8: `New` fails exactly when `appID = 0`, `secKey` is empty or `txnKey`
is empty, and otherwise returns a publisher without error; a failure returns
no publisher, and its error is `errInvalidAppID` when `appID = 0`, else
`errInvalidSecKey` when `secKey` is empty, else `errInvalidTxnKey`. -/
theorem C8_new_fails_iff (appID : Int) (secKey txnKey : GoString) :
    ((New appID secKey txnKey).2 ≠ none ↔ (appID = 0 ∨ secKey = [] ∨ txnKey = [])) ∧
    ((∃ p, New appID secKey txnKey = (some p, none)) ↔
      ¬ (appID = 0 ∨ secKey = [] ∨ txnKey = [])) ∧
    ((New appID secKey txnKey).2 ≠ none →
      New appID secKey txnKey =
        (none, some (if appID = 0 then Error.errInvalidAppID
          else if secKey = [] then Error.errInvalidSecKey
          else Error.errInvalidTxnKey))) := by
  unfold New
  by_cases ha : appID = 0
  · simp [ha]
  · by_cases hs : secKey = []
    · simp [ha, hs]
    · by_cases ht : txnKey = []
      · simp [ha, hs, ht]
      · simp [ha, hs, ht]

/-- Witness of C8: `New(1, "", "xxx")` fails with `errInvalidSecKey`. -/
theorem C8_new_fails_iff_witness :
    New 1 [] (str "xxx") = (none, some Error.errInvalidSecKey) :=
  (C8_new_fails_iff 1 [] (str "xxx")).2.2 (by decide)

/-- C9 (the code at the failing input): `New(1, "xxx", "xxx")` succeeds and
the publisher it returns has an empty `TransactionKey`, not `"xxx"`. -/
theorem C9_transaction_key_dropped :
    ∃ p, New 1 (str "xxx") (str "xxx") = (some p, none) ∧
      p.ApplicationID = 1 ∧ p.SecurityKey = str "xxx" ∧
      p.TransactionKey = [] ∧ p.TransactionKey ≠ str "xxx" :=
  ⟨{ ApplicationID := 1, SecurityKey := str "xxx" }, by decide, rfl, rfl, rfl, by decide⟩

/-- C10 as stated fails: `New(-1, "a", "b")` succeeds and the publisher it
returns has `ApplicationID = -1`, which is not positive. -/
theorem C10_negative_application_id :
    ∃ p, New (-1) (str "a") (str "b") = (some p, none) ∧ ¬ (0 < p.ApplicationID) :=
  ⟨{ ApplicationID := -1, SecurityKey := str "a" }, by decide, by decide⟩

/-- C10, amended: every publisher returned successfully by `New` has a
non-zero `ApplicationID` and a non-empty `SecurityKey`. -/
theorem C10_credentials_of_new (appID : Int) (secKey txnKey : GoString) (p : Publisher)
    (h : New appID secKey txnKey = (some p, none)) :
    p.ApplicationID ≠ 0 ∧ p.SecurityKey ≠ [] := by
  unfold New at h
  by_cases ha : appID = 0
  · simp [ha] at h
  · by_cases hs : secKey = []
    · simp [ha, hs] at h
    · by_cases ht : txnKey = []
      · simp [ha, hs, ht] at h
      · simp [ha, hs, ht] at h
        subst h
        exact ⟨ha, hs⟩

/-- Witness of C10, amended, at `New(1, "xxx", "xxx")`. -/
theorem C10_credentials_of_new_witness :
    New 1 (str "xxx") (str "xxx") = (some { ApplicationID := 1, SecurityKey := str "xxx" }, none) ∧
      (1 : Int) ≠ 0 ∧ str "xxx" ≠ [] :=
  ⟨by decide,
    C10_credentials_of_new 1 (str "xxx") (str "xxx") { ApplicationID := 1, SecurityKey := str "xxx" }
      (by decide)⟩

/-- C11: for every offer id and security key, `validOidHash` accepts one
hash only, the hex MD5 of `id ++ key`, which has 32 characters, all in `0-9`
or `a-f`; a hash of another length, or the digest with one character
replaced (an upper-cased letter for instance), is rejected. The same holds
for `validTxnHash`. For id `"123"` and key `"123"` the accepted hash is
`4297f44b13955235245b2497399d7a93`. -/
theorem C11_unique_accepted_hash (id key hash : GoString) :
    (validOidHash id key hash = true ↔ hash = md5Hash (id ++ key)) ∧
    (validTxnHash id key hash = true ↔ hash = md5Hash (id ++ key)) ∧
    (md5Hash (id ++ key)).length = 32 ∧
    (∀ c ∈ md5Hash (id ++ key), isLowerHex c = true) ∧
    (hash.length ≠ 32 →
      validOidHash id key hash = false ∧ validTxnHash id key hash = false) ∧
    (∀ (i : Nat) (c : UInt8), i < 32 → (md5Hash (id ++ key))[i]? ≠ some c →
      validOidHash id key ((md5Hash (id ++ key)).set i c) = false ∧
      validTxnHash id key ((md5Hash (id ++ key)).set i c) = false) ∧
    md5Hash (str "123" ++ str "123") = str "4297f44b13955235245b2497399d7a93" ∧
    validOidHash (str "123") (str "123") (str "4297f44b13955235245b2497399d7a93") = true ∧
    validOidHash (str "123") (str "123") (str "4297F44B13955235245B2497399D7A93") = false := by
  have reject : ∀ h : GoString, h ≠ md5Hash (id ++ key) →
      validOidHash id key h = false ∧ validTxnHash id key h = false := by
    intro h hne
    constructor
    · rw [← Bool.not_eq_true, validOidHash_iff]
      exact hne
    · rw [← Bool.not_eq_true, validTxnHash_iff]
      exact hne
  refine ⟨validOidHash_iff id key hash, validTxnHash_iff id key hash, md5Hash_length _,
    md5Hash_lower _, ?_, ?_, by decide!, by decide!, by decide!⟩
  · intro hlen
    apply reject
    intro heq
    apply hlen
    rw [heq, md5Hash_length]
  · intro i c hi hc
    apply reject
    exact set_ne_self _ i c (by rw [md5Hash_length]; exact hi) hc

/-- Witness of C11: the digest of `"123" ++ "123"` with its first character
replaced by `5`, and the digest cut to 31 characters, are rejected. -/
theorem C11_unique_accepted_hash_witness :
    (validOidHash (str "123") (str "123")
        ((md5Hash (str "123" ++ str "123")).set 0 53) = false ∧
      validTxnHash (str "123") (str "123")
        ((md5Hash (str "123" ++ str "123")).set 0 53) = false) ∧
    (validOidHash (str "123") (str "123") (str "4297f44b13955235245b2497399d7a9") = false ∧
      validTxnHash (str "123") (str "123") (str "4297f44b13955235245b2497399d7a9") = false) :=
  ⟨(C11_unique_accepted_hash (str "123") (str "123") []).2.2.2.2.2.1 0 53
      (by decide) (by decide!),
    (C11_unique_accepted_hash (str "123") (str "123")
      (str "4297f44b13955235245b2497399d7a9")).2.2.2.2.1 (by decide)⟩

/-- C12: whenever `ProcessRewardNotification` returns a non-nil record, with
or without an error, the hex MD5 of `record.Offer.ID ++ SecurityKey` is the
callback's `oidHash` and the hex MD5 of `record.TransactionID ++
TransactionKey` is the callback's `txnHash`. -/
theorem C12_record_is_authenticated (pf : FloatParser) (p : Publisher) (query : Values)
    (rn : RewardNotification) (h : (ProcessRewardNotification pf p query).1 = some rn) :
    md5Hash (rn.Offer.ID ++ p.SecurityKey) = query.Get (str "oidHash") ∧
      md5Hash (rn.TransactionID ++ p.TransactionKey) = query.Get (str "txnHash") := by
  by_cases hv : hashesVerify p query
  · rw [process_of_good_hash pf p query hv] at h
    have hids : rn.Offer.ID = query.Get (str "offerInvitationId") ∧
        rn.TransactionID = query.Get (str "transactionId") := by
      split at h
      · simp only [Option.some.injEq] at h
        subst h
        exact ⟨rfl, rfl⟩
      · split at h
        · simp only [Option.some.injEq] at h
          subst h
          exact ⟨rfl, rfl⟩
        · simp only [Option.some.injEq] at h
          subst h
          exact ⟨rfl, rfl⟩
    rw [hids.1, hids.2]
    exact ⟨hv.1.symm, hv.2.symm⟩
  · rw [process_of_bad_hash pf p query hv] at h
    simp at h

/-- Witness of C12: the partial record returned with `errInvalidAmount`. -/
theorem C12_record_is_authenticated_witness :
    (ProcessRewardNotification numeralParser testPublisher badAmtQuery).2 =
        some Error.errInvalidAmount ∧
      md5Hash (str "123" ++ testPublisher.SecurityKey) = badAmtQuery.Get (str "oidHash") ∧
      md5Hash (str "456" ++ testPublisher.TransactionKey) = badAmtQuery.Get (str "txnHash") :=
  ⟨by decide!,
    C12_record_is_authenticated numeralParser testPublisher badAmtQuery
      { TransactionID := str "456", Offer := { ID := str "123" } } (by decide!)⟩

/-- C13: `GenerateRewardCenterURL` fails exactly when `GenerateUserID` fails,
with the same error, `errInvalidEndUserID`, and an empty URL; otherwise it
returns `https://www.peanutlabs.com/userGreeting.php?userId=` followed by the
identifier of `GenerateUserID`, verbatim; for `"saad"`, application 1 and key
`"123"` the URL ends in `saad-1-bb753c1132`. -/
theorem C13_reward_center_url (p : Publisher) (e : GoString) :
    ((∃ u err, GenerateRewardCenterURL p e = some (u, some err)) ↔
      (∃ id err, GenerateUserID p e = some (id, some err))) ∧
    (∀ id err, GenerateUserID p e = some (id, some err) →
      err = Error.errInvalidEndUserID ∧
        GenerateRewardCenterURL p e = some ([], some err)) ∧
    (∀ id, GenerateUserID p e = some (id, none) →
      GenerateRewardCenterURL p e =
        some (str "https://www.peanutlabs.com/userGreeting.php?userId=" ++ id, none)) ∧
    (∀ tk : GoString,
      GenerateRewardCenterURL
          { ApplicationID := 1, SecurityKey := str "123", TransactionKey := tk } (str "saad") =
        some (str "https://www.peanutlabs.com/userGreeting.php?userId=saad-1-bb753c1132",
          none)) := by
  have hprefix : defaultHost ++ str "/userGreeting.php?userId=" =
      str "https://www.peanutlabs.com/userGreeting.php?userId=" := by decide
  have hvec : ∀ tk : GoString,
      GenerateRewardCenterURL
          { ApplicationID := 1, SecurityKey := str "123", TransactionKey := tk } (str "saad") =
        some (str "https://www.peanutlabs.com/userGreeting.php?userId=saad-1-bb753c1132",
          none) := by
    intro tk
    unfold GenerateRewardCenterURL
    rw [GenerateUserID_valid _ _ (by decide)]
    show some (defaultHost ++ str "/userGreeting.php?userId=" ++
        (str "saad" ++ str "-" ++ fmtInt 1 ++ str "-" ++
          List.take 10 (md5Hash (str "saad" ++ fmtInt 1 ++ str "123"))),
        (none : Option Error)) = _
    decide!
  refine ⟨?_, ?_, ?_, hvec⟩
  · cases hv : validEndUserID e with
    | false =>
      unfold GenerateRewardCenterURL
      rw [GenerateUserID_invalid p e hv]
      simp
    | true =>
      unfold GenerateRewardCenterURL
      rw [GenerateUserID_valid p e hv]
      simp
  · intro id err h
    cases hv : validEndUserID e with
    | false =>
      unfold GenerateRewardCenterURL
      rw [GenerateUserID_invalid p e hv] at h ⊢
      simp only [Option.some.injEq, Prod.mk.injEq] at h
      obtain ⟨_, rfl⟩ := h
      simp
    | true =>
      rw [GenerateUserID_valid p e hv] at h
      simp at h
  · intro id h
    unfold GenerateRewardCenterURL
    rw [h, ← hprefix]
    simp

/-- Witness of C13: the empty end-user id fails in both functions, and
`"saad"` succeeds in both. -/
theorem C13_reward_center_url_witness :
    (Error.errInvalidEndUserID = Error.errInvalidEndUserID ∧
      GenerateRewardCenterURL testPublisher [] =
        some ([], some Error.errInvalidEndUserID)) ∧
    GenerateRewardCenterURL testPublisher (str "saad") =
      some (str "https://www.peanutlabs.com/userGreeting.php?userId=" ++
        str "saad-1-bb753c1132", none) :=
  ⟨(C13_reward_center_url testPublisher []).2.1 [] Error.errInvalidEndUserID (by decide),
    (C13_reward_center_url testPublisher (str "saad")).2.2.1 (str "saad-1-bb753c1132")
      (by decide!)⟩

/-- C14 as stated fails: `GenerateUserID` succeeds on the end-user id `a&b`
and the identifier it returns, `a&b-1-85548e547b`, contains `&`, which is
neither an ASCII letter, nor a digit, nor a hyphen. -/
theorem C14_identifier_with_ampersand :
    GenerateUserID testPublisher (str "a&b") = some (str "a&b-1-85548e547b", none) ∧
      ∃ c ∈ str "a&b-1-85548e547b", isURLSafe c = false :=
  ⟨by decide!, 38, by decide, by decide⟩

/-- C14, amended: when every character of `endUserID` is an ASCII letter, a
decimal digit or a hyphen, so is every character of the identifier that
`GenerateUserID` returns successfully. -/
theorem C14_identifier_url_safe (p : Publisher) (e id : GoString)
    (he : ∀ c ∈ e, isURLSafe c = true)
    (h : GenerateUserID p e = some (id, none)) :
    ∀ c ∈ id, isURLSafe c = true := by
  obtain ⟨_, hid⟩ := GenerateUserID_success p e id h
  have hs : ∀ c ∈ str "-", isURLSafe c = true := by decide
  intro c hc
  rw [hid] at hc
  simp only [List.mem_append] at hc
  rcases hc with (((hc | hc) | hc) | hc) | hc
  · exact he c hc
  · exact hs c hc
  · exact fmtInt_isURLSafe _ c hc
  · exact hs c hc
  · exact isURLSafe_of_isLowerHex c (md5Hash_lower _ c (List.mem_of_mem_take hc))

/-- Witness of C14, amended, at the end-user id `"saad"`. -/
theorem C14_identifier_url_safe_witness :
    (∀ c ∈ str "saad", isURLSafe c = true) ∧
      GenerateUserID testPublisher (str "saad") = some (str "saad-1-bb753c1132", none) ∧
      ∀ c ∈ str "saad-1-bb753c1132", isURLSafe c = true :=
  ⟨by decide, by decide!,
    C14_identifier_url_safe testPublisher (str "saad") (str "saad-1-bb753c1132")
      (by decide) (by decide!)⟩

/-- C15: for every input, the empty string included, `md5Hash` returns 32
characters, each in `0-9` or `a-f`: the two hex digits, high then low, of each
of the 16 digest bytes in order. Hence the slice `usergo[0:10]` is in range
and `GenerateUserID` never panics. -/
theorem C15_md5Hash_shape (val : GoString) (p : Publisher) (e : GoString) :
    (md5Hash val).length = 32 ∧
    (∀ c ∈ md5Hash val, isLowerHex c = true) ∧
    (MD5.Sum val).length = 16 ∧
    (∀ i : Nat,
      (md5Hash val)[2 * i]? = ((MD5.Sum val)[i]?).map (fun b => hexDigit (b.toNat / 16)) ∧
      (md5Hash val)[2 * i + 1]? =
        ((MD5.Sum val)[i]?).map (fun b => hexDigit (b.toNat % 16))) ∧
    md5Hash [] = str "d41d8cd98f00b204e9800998ecf8427e" ∧
    slice (md5Hash val) 0 10 = some ((md5Hash val).take 10) ∧
    slice (md5Hash (e ++ fmtInt p.ApplicationID ++ p.SecurityKey)) 0 10 ≠ none ∧
    GenerateUserID p e ≠ none := by
  refine ⟨md5Hash_length val, md5Hash_lower val, Sum_length val, ?_, by decide!,
    slice_md5Hash val, ?_, ?_⟩
  · have hpos : ∀ (bs : List UInt8) (i : Nat),
        (fmtHex bs)[2 * i]? = (bs[i]?).map (fun b => hexDigit (b.toNat / 16)) ∧
        (fmtHex bs)[2 * i + 1]? = (bs[i]?).map (fun b => hexDigit (b.toNat % 16)) := by
      intro bs
      induction bs with
      | nil =>
        intro i
        simp [fmtHex]
      | cons b bs ih =>
        intro i
        cases i with
        | zero => simp [fmtHex]
        | succ i =>
          have h2 : 2 * (i + 1) = 2 * i + 1 + 1 := by omega
          have hcons : fmtHex (b :: bs) =
              hexDigit (b.toNat / 16) :: hexDigit (b.toNat % 16) :: fmtHex bs := by
            simp [fmtHex]
          rw [hcons, h2]
          simpa using ih i
    intro i
    exact hpos (MD5.Sum val) i
  · rw [slice_md5Hash]
    simp
  · cases hv : validEndUserID e with
    | false =>
      rw [GenerateUserID_invalid p e hv]
      simp
    | true =>
      rw [GenerateUserID_valid p e hv]
      simp

/-- C16: the result of `GenerateUserID` is determined by `endUserID`,
`ApplicationID` and `SecurityKey` (the `TransactionKey` plays no part), and
the result of `ProcessRewardNotification` is determined by the values of the
query parameters, `SecurityKey` and `TransactionKey` (the `ApplicationID`
plays no part). -/
theorem C16_depends_only_on_inputs :
    (∀ (p p2 : Publisher) (e : GoString),
      p.ApplicationID = p2.ApplicationID → p.SecurityKey = p2.SecurityKey →
      GenerateUserID p e = GenerateUserID p2 e) ∧
    (∀ (pf : FloatParser) (p p2 : Publisher) (query query2 : Values),
      p.SecurityKey = p2.SecurityKey → p.TransactionKey = p2.TransactionKey →
      (∀ key, query.Get key = query2.Get key) →
      ProcessRewardNotification pf p query = ProcessRewardNotification pf p2 query2) := by
  constructor
  · intro p p2 e ha hs
    unfold GenerateUserID
    rw [ha, hs]
  · intro pf p p2 query query2 hs ht hq
    unfold ProcessRewardNotification
    simp only [hs, ht, hq]

/-- Witness of C16: publishers that differ in `TransactionKey` only give the
same identifier, and publishers that differ in `ApplicationID` only give the
same result on the callback of the package test. -/
theorem C16_depends_only_on_inputs_witness :
    GenerateUserID { ApplicationID := 1, SecurityKey := str "123", TransactionKey := str "k" }
        (str "saad") =
      GenerateUserID { ApplicationID := 1, SecurityKey := str "123", TransactionKey := [] }
        (str "saad") ∧
    ProcessRewardNotification numeralParser
        { ApplicationID := 1, SecurityKey := str "123", TransactionKey := [] } testQuery =
      ProcessRewardNotification numeralParser
        { ApplicationID := 77, SecurityKey := str "123", TransactionKey := [] } testQuery :=
  ⟨C16_depends_only_on_inputs.1 _ _ (str "saad") rfl rfl,
    C16_depends_only_on_inputs.2 numeralParser _ _ testQuery testQuery rfl rfl
      (fun _ => rfl)⟩

/-- C17: for two publishers with non-negative `ApplicationID` and any keys,
if `GenerateUserID` succeeds on two end-user ids with the same identifier,
then the two end-user ids are equal and the two `ApplicationID`s are equal,
whatever characters (hyphens, digits) the end-user ids contain. -/
theorem C17_identifiers_do_not_collide (p1 p2 : Publisher) (e1 e2 id : GoString)
    (h1 : 0 ≤ p1.ApplicationID) (h2 : 0 ≤ p2.ApplicationID)
    (hg1 : GenerateUserID p1 e1 = some (id, none))
    (hg2 : GenerateUserID p2 e2 = some (id, none)) :
    e1 = e2 ∧ p1.ApplicationID = p2.ApplicationID := by
  obtain ⟨n1, hn1⟩ := Int.eq_ofNat_of_zero_le h1
  obtain ⟨n2, hn2⟩ := Int.eq_ofNat_of_zero_le h2
  have shape : ∀ (p : Publisher) (e : GoString), GenerateUserID p e = some (id, none) →
      id = e ++ (45 :: fmtInt p.ApplicationID) ++
        (45 :: (md5Hash (e ++ fmtInt p.ApplicationID ++ p.SecurityKey)).take 10) := by
    intro p e h
    have hs : str "-" = [45] := by decide
    rw [(GenerateUserID_success p e id h).2, hs]
    simp
  have a1 := shape p1 e1 hg1
  have a2 := shape p2 e2 hg2
  rw [a1] at a2
  have hlen : ∀ v : GoString, ((45 : UInt8) :: (md5Hash v).take 10).length = 11 := by
    intro v
    simp [md5Hash_length]
  have hsplit := List.append_inj' a2 (by rw [hlen, hlen])
  rw [hn1, hn2] at hsplit
  have hd1 := isDigit_ne_hyphen _ (fmtInt_ofNat_isDigit n1)
  have hd2 := isDigit_ne_hyphen _ (fmtInt_ofNat_isDigit n2)
  obtain ⟨he, hd⟩ := append_cons_inj_right 45 _ _ _ _ hd1 hd2 hsplit.1
  refine ⟨he, ?_⟩
  rw [hn1, hn2]
  have hval := congrArg (decimalValue 0) hd
  rw [decimalValue_fmtInt, decimalValue_fmtInt] at hval
  rw [hval]

/-- Witness of C17 at the end-user id `a-1`, which contains a hyphen and a
digit, for publishers with different keys. -/
theorem C17_identifiers_do_not_collide_witness :
    GenerateUserID testPublisher (str "a-1") = some (str "a-1-1-7a1203b1ff", none) ∧
      (str "a-1" = str "a-1" ∧ testPublisher.ApplicationID = (1 : Int)) :=
  ⟨by decide!,
    C17_identifiers_do_not_collide testPublisher
      { ApplicationID := 1, SecurityKey := str "123", TransactionKey := str "k" }
      (str "a-1") (str "a-1") (str "a-1-1-7a1203b1ff")
      (by decide) (by decide) (by decide!) (by decide!)⟩

end Peanutlabs
